import Mathlib

/-!
Verification development for the PanZoom controller of the diagram editor
(the pan/zoom interaction engine).  The mutable state of the PanZoom class,
its configuration record, and every mutator and gesture handler the claims
touch are embedded as executable Lean functions over exact rationals in
place of IEEE doubles.  Fallible paths (a null-element dereference the
source would throw on) are embedded as Option results, with none standing
for the thrown exception.
-/

namespace PanZoom

/-- Configuration options of the controller with the default values of the
constructor (zoomEnabled true, panEnabled true, minZoom 0.1, maxZoom 10,
zoomScaleSensitivity 0.2, dblClickZoomEnabled true, mouseWheelZoomEnabled
true, fitOnLoad true).  The controls field of the source is a bag of button
references with no transform semantics and is omitted. -/
structure Options where
  zoomEnabled : Bool
  panEnabled : Bool
  minZoom : ℚ
  maxZoom : ℚ
  zoomScaleSensitivity : ℚ
  dblClickZoomEnabled : Bool
  mouseWheelZoomEnabled : Bool
  fitOnLoad : Bool
deriving DecidableEq, Repr

/-- Default option values of the constructor. -/
def defaults : Options :=
  { zoomEnabled := true
    panEnabled := true
    minZoom := 1/10
    maxZoom := 10
    zoomScaleSensitivity := 1/5
    dblClickZoomEnabled := true
    mouseWheelZoomEnabled := true
    fitOnLoad := true }

/-- Geometry of the controlled SVG element as the browser lays it out with no
transform applied: client position and natural size of the untransformed
box, plus the content-box size of the parent container when one exists.
Modelled from the spec: the Container Provider supplies a DOM-like element
with known content-box dimensions; the DOM itself is outside the
repository. -/
structure SvgElem where
  layoutLeft : ℚ
  layoutTop : ℚ
  naturalWidth : ℚ
  naturalHeight : ℚ
  container : Option (ℚ × ℚ)
deriving DecidableEq, Repr

/-- Mutable state of one PanZoom instance: the element reference (none after
destroy, or when constructed with a null element), the options record, the
Transform (currentZoom, currentPan), and the interaction fields. -/
structure State where
  svgElement : Option SvgElem
  options : Options
  currentZoom : ℚ
  currentPanX : ℚ
  currentPanY : ℚ
  isDragging : Bool
  lastMouseX : ℚ
  lastMouseY : ℚ
  initialPinchDistance : Option ℚ
  initialZoom : Option ℚ
deriving DecidableEq, Repr

/-- State right after the constructor runs: zoom 1, pan (0,0), no drag, no
pinch baseline.  The deferred fitOnLoad timer is not part of the
synchronous construction and is not folded in here. -/
def initState (el : Option SvgElem) (o : Options) : State :=
  { svgElement := el
    options := o
    currentZoom := 1
    currentPanX := 0
    currentPanY := 0
    isDragging := false
    lastMouseX := 0
    lastMouseY := 0
    initialPinchDistance := none
    initialZoom := none }

/-- Client bounding rectangle of an element. -/
structure Rect where
  left : ℚ
  top : ℚ
  width : ℚ
  height : ℚ
deriving DecidableEq, Repr

/-- getBoundingClientRect of the controlled element under the applied CSS
transform translate(panX, panY) scale(zoom) with transform-origin top-left
(applyTransform writes exactly this transform from the state after every
mutation): the layout box with origin (layoutLeft, layoutTop) renders with
its corner moved by the translation and its size multiplied by the scale.
Browser behavior for nonnegative zoom, modelled from the spec transform
semantics. -/
def boundingRect (s : State) (e : SvgElem) : Rect :=
  { left := e.layoutLeft + s.currentPanX
    top := e.layoutTop + s.currentPanY
    width := e.naturalWidth * s.currentZoom
    height := e.naturalHeight * s.currentZoom }

/-- Screen position of an element-local point (px, py) under the applied
transform: the point maps to layout origin + translation + scale times the
local coordinates.  Modelled from the spec transform semantics (a point at
local (x,y) maps to screen (translateX + x*scale, translateY + y*scale),
offset by the element layout position). -/
def screenPos (s : State) (e : SvgElem) (px py : ℚ) : ℚ × ℚ :=
  (e.layoutLeft + s.currentPanX + px * s.currentZoom,
   e.layoutTop + s.currentPanY + py * s.currentZoom)

/-- Scale clamp Math.max(minZoom, Math.min(maxZoom, z)), as written inline in
zoomBy, setZoom and handleTouchMove. -/
def clampZoom (o : Options) (z : ℚ) : ℚ :=
  max o.minZoom (min o.maxZoom z)

/-- PanZoom.zoomBy.  The two center coordinates are each optional, mirroring
the undefined checks of the source.  Returns none exactly when the source
throws: a center point supplied while svgElement is null makes
this.svgElement.getBoundingClientRect() dereference null, before any state
write.  applyTransform only mirrors the state into CSS and contributes no
state change. -/
def zoomBy (s : State) (factor : ℚ) (centerX centerY : Option ℚ) :
    Option (Bool × State) :=
  let newZoom := clampZoom s.options (s.currentZoom * factor)
  if newZoom = s.currentZoom then some (false, s)
  else
    match centerX, centerY with
    | some cx, some cy =>
      match s.svgElement with
      | none => none
      | some e =>
        let rect := boundingRect s e
        let relativeX := cx - rect.left
        let relativeY := cy - rect.top
        let zoomRatio := newZoom / s.currentZoom
        some (true, { s with
          currentPanX := cx - rect.left - relativeX * zoomRatio
          currentPanY := cy - rect.top - relativeY * zoomRatio
          currentZoom := newZoom })
    | _, _ => some (true, { s with currentZoom := newZoom })

/-- PanZoom.zoomIn: gate on zoomEnabled, then zoomBy(1.2). -/
def zoomIn (s : State) : Option (Bool × State) :=
  if !s.options.zoomEnabled then some (false, s)
  else zoomBy s (12/10) none none

/-- PanZoom.zoomOut: gate on zoomEnabled, then zoomBy(0.8). -/
def zoomOut (s : State) : Option (Bool × State) :=
  if !s.options.zoomEnabled then some (false, s)
  else zoomBy s (8/10) none none

/-- PanZoom.panBy: gate on panEnabled, then add the deltas to the pan. -/
def panBy (s : State) (deltaX deltaY : ℚ) : Bool × State :=
  if !s.options.panEnabled then (false, s)
  else
    (true, { s with
      currentPanX := s.currentPanX + deltaX
      currentPanY := s.currentPanY + deltaY })

/-- PanZoom.fit: false when the element or its parent container is missing;
otherwise scale = Math.min(containerW/svgW, containerH/svgH, 1) with the
svg rectangle measured under the current transform, and the pan centers
the scaled rectangle in the container. -/
def fit (s : State) : Bool × State :=
  match s.svgElement with
  | none => (false, s)
  | some e =>
    match e.container with
    | none => (false, s)
    | some (cw, ch) =>
      let svgRect := boundingRect s e
      let scaleX := cw / svgRect.width
      let scaleY := ch / svgRect.height
      let scale := min (min scaleX scaleY) 1
      (true, { s with
        currentZoom := scale
        currentPanX := (cw - svgRect.width * scale) / 2
        currentPanY := (ch - svgRect.height * scale) / 2 })

/-- PanZoom.reset: unconditionally zoom 1 and pan (0,0), returning true. -/
def reset (s : State) : Bool × State :=
  (true, { s with currentZoom := 1, currentPanX := 0, currentPanY := 0 })

/-- PanZoom.setZoom: gate on zoomEnabled; clamp; false when the clamped value
equals the current zoom; otherwise write the clamped value. -/
def setZoom (s : State) (zoom : ℚ) : Bool × State :=
  if !s.options.zoomEnabled then (false, s)
  else
    let clampedZoom := clampZoom s.options zoom
    if clampedZoom = s.currentZoom then (false, s)
    else (true, { s with currentZoom := clampedZoom })

/-- PanZoom.setPan: gate on panEnabled; otherwise write the pan and return
true (the source has no unchanged-value check here). -/
def setPan (s : State) (x y : ℚ) : Bool × State :=
  if !s.options.panEnabled then (false, s)
  else (true, { s with currentPanX := x, currentPanY := y })

/-- PanZoom.centerAt: pan so the element rectangle is centered on the given
point.  Returns none when the source would throw on a null element. -/
def centerAt (s : State) (centerX centerY : ℚ) : Option (Bool × State) :=
  match s.svgElement with
  | none => none
  | some e =>
    let rect := boundingRect s e
    some (true, { s with
      currentPanX := centerX - rect.left - (rect.width * s.currentZoom) / 2
      currentPanY := centerY - rect.top - (rect.height * s.currentZoom) / 2 })

/-- PanZoom.resize: a stub in the source, always true, no state change. -/
def resize (s : State) : Bool × State :=
  (true, s)

/-- PanZoom.destroy: removes listeners (no transform state) and nulls the
element reference. -/
def destroy (s : State) : State :=
  { s with svgElement := none }

/-- PanZoom.isInitialized (name shortened): svgElement is not null. -/
def isInit (s : State) : Bool :=
  s.svgElement.isSome

/-- PanZoom.handleDoubleClick.  clientX and clientY are the pointer
coordinates carried by the double-click event; the source handler receives
the event but never reads them, computing the element rect center instead.
Returns none when the source would throw on a null element. -/
def handleDoubleClick (s : State) (clientX clientY : ℚ) : Option State :=
  match s.svgElement with
  | none => none
  | some e =>
    let rect := boundingRect s e
    let centerX := rect.left + rect.width / 2
    let centerY := rect.top + rect.height / 2
    if |s.currentZoom - 1| < 1/10 then
      some (fit s).2
    else
      (centerAt (setZoom s 1).2 centerX centerY).map Prod.snd

/-- Two-touch branch of PanZoom.handleTouchStart: record the inter-finger
distance and the current zoom as the pinch baseline.  dist is the value
getTouchDistance(touch1, touch2) = sqrt(dx^2 + dy^2), passed in as a value
because square roots leave the rationals; the handler only stores it. -/
def handleTouchStartPinch (s : State) (dist : ℚ) : State :=
  if s.options.zoomEnabled then
    { s with initialPinchDistance := some dist, initialZoom := some s.currentZoom }
  else s

/-- Two-touch branch of PanZoom.handleTouchMove.  currentDistance is
getTouchDistance of the two current touches.  The truthiness test
if (this.initialPinchDistance) is false for both null and 0, and a null
initialZoom would coerce to 0 in the arithmetic, hence the getD 0
readings. -/
def handleTouchMovePinch (s : State) (currentDistance : ℚ) : State :=
  if s.options.zoomEnabled then
    if s.initialPinchDistance.getD 0 ≠ 0 then
      let scale := currentDistance / s.initialPinchDistance.getD 0
      let newZoom := s.initialZoom.getD 0 * scale
      (setZoom s (clampZoom s.options newZoom)).2
    else s
  else s

/-- PanZoom.handleTouchEnd: clear the drag flag and the pinch baseline. -/
def handleTouchEnd (s : State) : State :=
  { s with isDragging := false, initialPinchDistance := none, initialZoom := none }

/-- One controller call, for reasoning about call sequences.  A zoomBy call
that throws (none) leaves the state as it was, which matches the source:
the throw point precedes every state write of zoomBy. -/
inductive PZOp where
  | opZoomBy (factor : ℚ) (centerX centerY : Option ℚ)
  | opSetZoom (z : ℚ)
  | opZoomIn
  | opZoomOut
  | opPanBy (dx dy : ℚ)
  | opSetPan (x y : ℚ)
  | opPinchStart (d : ℚ)
  | opPinchMove (d : ℚ)
  | opPinchEnd
  | opReset
deriving DecidableEq, Repr

/-- Apply one controller call to the state. -/
def applyOp (s : State) (op : PZOp) : State :=
  match op with
  | .opZoomBy f cx cy => ((zoomBy s f cx cy).map Prod.snd).getD s
  | .opSetZoom z => (setZoom s z).2
  | .opZoomIn => ((zoomIn s).map Prod.snd).getD s
  | .opZoomOut => ((zoomOut s).map Prod.snd).getD s
  | .opPanBy dx dy => (panBy s dx dy).2
  | .opSetPan x y => (setPan s x y).2
  | .opPinchStart d => handleTouchStartPinch s d
  | .opPinchMove d => handleTouchMovePinch s d
  | .opPinchEnd => handleTouchEnd s
  | .opReset => (reset s).2

/-- Concrete 100 by 100 element at the client origin inside a 1 by 1
container. -/
def elemA : SvgElem :=
  { layoutLeft := 0, layoutTop := 0, naturalWidth := 100, naturalHeight := 100,
    container := some (1, 1) }

/-- Concrete 100 by 50 element at the client origin inside a 300 by 200
container. -/
def elemB : SvgElem :=
  { layoutLeft := 0, layoutTop := 0, naturalWidth := 100, naturalHeight := 50,
    container := some (300, 200) }

/-- Freshly constructed controller on elemA with defaults, then destroyed. -/
def destroyedState : State :=
  destroy (initState (some elemA) defaults)

/-- Fresh controller on elemA, panned to translation (50, 0). -/
def s3 : State :=
  { initState (some elemA) defaults with currentPanX := 50 }

/-- Fresh controller on elemA with scale 5/2. -/
def s4 : State :=
  { initState (some elemA) defaults with currentZoom := 5/2 }

/-- Fresh controller on elemA with zoom disabled. -/
def s5 : State :=
  initState (some elemA) { defaults with zoomEnabled := false }

/-- Fresh controller on elemA with translation (5, 7). -/
def s6 : State :=
  { initState (some elemA) defaults with currentPanX := 5, currentPanY := 7 }

lemma clampZoom_le (o : Options) (z : ℚ) (h : o.minZoom ≤ o.maxZoom) :
    o.minZoom ≤ clampZoom o z ∧ clampZoom o z ≤ o.maxZoom :=
  ⟨le_max_left _ _, max_le h (min_le_left _ _)⟩

lemma clampZoom_eq_self (o : Options) (z : ℚ) (h1 : o.minZoom ≤ z)
    (h2 : z ≤ o.maxZoom) : clampZoom o z = z := by
  unfold clampZoom
  rw [min_eq_right h2, max_eq_right h1]

lemma clampZoom_idem (o : Options) (z : ℚ) (h : o.minZoom ≤ o.maxZoom) :
    clampZoom o (clampZoom o z) = clampZoom o z :=
  clampZoom_eq_self o _ (clampZoom_le o z h).1 (clampZoom_le o z h).2

/-- Scale-related shape of a successor state: same options, and a zoom that is
unchanged, clamped, or exactly 1. -/
def zoomShape (s t : State) : Prop :=
  t.options = s.options ∧
  (t.currentZoom = s.currentZoom ∨
   (∃ w, t.currentZoom = clampZoom s.options w) ∨
   t.currentZoom = 1)

lemma zoomBy_pos (s : State) (f : ℚ) (cx cy : Option ℚ)
    (h : clampZoom s.options (s.currentZoom * f) = s.currentZoom) :
    zoomBy s f cx cy = some (false, s) := by
  unfold zoomBy
  exact if_pos h

lemma zoomBy_neg_nn (s : State) (f : ℚ)
    (h : ¬ clampZoom s.options (s.currentZoom * f) = s.currentZoom) :
    zoomBy s f none none
      = some (true, { s with currentZoom := clampZoom s.options (s.currentZoom * f) }) := by
  unfold zoomBy
  exact if_neg h

lemma zoomBy_neg_ns (s : State) (f cy : ℚ)
    (h : ¬ clampZoom s.options (s.currentZoom * f) = s.currentZoom) :
    zoomBy s f none (some cy)
      = some (true, { s with currentZoom := clampZoom s.options (s.currentZoom * f) }) := by
  unfold zoomBy
  exact if_neg h

lemma zoomBy_neg_sn (s : State) (f cx : ℚ)
    (h : ¬ clampZoom s.options (s.currentZoom * f) = s.currentZoom) :
    zoomBy s f (some cx) none
      = some (true, { s with currentZoom := clampZoom s.options (s.currentZoom * f) }) := by
  unfold zoomBy
  exact if_neg h

lemma zoomBy_neg_center (s : State) (f cx cy : ℚ) (e : SvgElem)
    (h : ¬ clampZoom s.options (s.currentZoom * f) = s.currentZoom)
    (hse : s.svgElement = some e) :
    zoomBy s f (some cx) (some cy)
      = some (true, { s with
          currentPanX := cx - (boundingRect s e).left
            - (cx - (boundingRect s e).left)
              * (clampZoom s.options (s.currentZoom * f) / s.currentZoom)
          currentPanY := cy - (boundingRect s e).top
            - (cy - (boundingRect s e).top)
              * (clampZoom s.options (s.currentZoom * f) / s.currentZoom)
          currentZoom := clampZoom s.options (s.currentZoom * f) }) := by
  unfold zoomBy
  rw [hse]
  exact if_neg h

lemma zoomBy_neg_center_null (s : State) (f cx cy : ℚ)
    (h : ¬ clampZoom s.options (s.currentZoom * f) = s.currentZoom)
    (hse : s.svgElement = none) :
    zoomBy s f (some cx) (some cy) = none := by
  unfold zoomBy
  rw [hse]
  exact if_neg h

lemma setZoom_disabled (s : State) (z : ℚ)
    (h : s.options.zoomEnabled = false) : setZoom s z = (false, s) := by
  unfold setZoom
  rw [h]
  exact if_pos rfl

lemma setZoom_pos (s : State) (z : ℚ) (hz : s.options.zoomEnabled = true)
    (h : clampZoom s.options z = s.currentZoom) : setZoom s z = (false, s) := by
  unfold setZoom
  rw [hz, if_neg (by decide : ¬ ((!true) = true))]
  exact if_pos h

lemma setZoom_neg (s : State) (z : ℚ) (hz : s.options.zoomEnabled = true)
    (h : ¬ clampZoom s.options z = s.currentZoom) :
    setZoom s z = (true, { s with currentZoom := clampZoom s.options z }) := by
  unfold setZoom
  rw [hz, if_neg (by decide : ¬ ((!true) = true))]
  exact if_neg h

lemma zoomBy_snd_shape (s : State) (f : ℚ) (cx cy : Option ℚ) :
    zoomShape s (((zoomBy s f cx cy).map Prod.snd).getD s) := by
  unfold zoomShape
  by_cases h : clampZoom s.options (s.currentZoom * f) = s.currentZoom
  · rw [zoomBy_pos s f cx cy h]
    exact ⟨rfl, Or.inl rfl⟩
  · cases cx with
    | none =>
      cases cy with
      | none =>
        rw [zoomBy_neg_nn s f h]
        exact ⟨rfl, Or.inr (Or.inl ⟨s.currentZoom * f, rfl⟩)⟩
      | some cyv =>
        rw [zoomBy_neg_ns s f cyv h]
        exact ⟨rfl, Or.inr (Or.inl ⟨s.currentZoom * f, rfl⟩)⟩
    | some cxv =>
      cases cy with
      | none =>
        rw [zoomBy_neg_sn s f cxv h]
        exact ⟨rfl, Or.inr (Or.inl ⟨s.currentZoom * f, rfl⟩)⟩
      | some cyv =>
        cases hse : s.svgElement with
        | none =>
          rw [zoomBy_neg_center_null s f cxv cyv h hse]
          exact ⟨rfl, Or.inl rfl⟩
        | some e =>
          rw [zoomBy_neg_center s f cxv cyv e h hse]
          exact ⟨rfl, Or.inr (Or.inl ⟨s.currentZoom * f, rfl⟩)⟩

lemma setZoom_snd_shape (s : State) (z : ℚ) :
    zoomShape s (setZoom s z).2 := by
  unfold zoomShape
  cases hz : s.options.zoomEnabled with
  | false =>
    rw [setZoom_disabled s z hz]
    exact ⟨rfl, Or.inl rfl⟩
  | true =>
    by_cases h : clampZoom s.options z = s.currentZoom
    · rw [setZoom_pos s z hz h]
      exact ⟨rfl, Or.inl rfl⟩
    · rw [setZoom_neg s z hz h]
      exact ⟨rfl, Or.inr (Or.inl ⟨z, rfl⟩)⟩

lemma applyOp_shape (s : State) (op : PZOp) : zoomShape s (applyOp s op) := by
  cases op with
  | opZoomBy f cx cy => exact zoomBy_snd_shape s f cx cy
  | opSetZoom z => exact setZoom_snd_shape s z
  | opZoomIn =>
    simp only [applyOp, zoomIn]
    split
    · simp [zoomShape]
    · exact zoomBy_snd_shape s (12/10) none none
  | opZoomOut =>
    simp only [applyOp, zoomOut]
    split
    · simp [zoomShape]
    · exact zoomBy_snd_shape s (8/10) none none
  | opPanBy dx dy =>
    simp only [applyOp, panBy]
    split <;> simp [zoomShape]
  | opSetPan x y =>
    simp only [applyOp, setPan]
    split <;> simp [zoomShape]
  | opPinchStart d =>
    simp only [applyOp, handleTouchStartPinch]
    split <;> simp [zoomShape]
  | opPinchMove d =>
    simp only [applyOp, handleTouchMovePinch]
    split
    · split
      · exact setZoom_snd_shape s _
      · simp [zoomShape]
    · simp [zoomShape]
  | opPinchEnd => simp [applyOp, handleTouchEnd, zoomShape]
  | opReset => simp [applyOp, reset, zoomShape]

lemma shape_preserves_inv (s t : State) (h : zoomShape s t)
    (h1 : s.options.minZoom ≤ 1) (h2 : 1 ≤ s.options.maxZoom)
    (hlo : s.options.minZoom ≤ s.currentZoom)
    (hhi : s.currentZoom ≤ s.options.maxZoom) :
    t.options = s.options ∧
    s.options.minZoom ≤ t.currentZoom ∧ t.currentZoom ≤ s.options.maxZoom := by
  obtain ⟨ho, hz⟩ := h
  refine ⟨ho, ?_⟩
  rcases hz with hz | ⟨w, hz⟩ | hz
  · rw [hz]; exact ⟨hlo, hhi⟩
  · rw [hz]; exact clampZoom_le s.options w (h1.trans h2)
  · rw [hz]; exact ⟨h1, h2⟩

lemma foldl_applyOp_inv (ops : List PZOp) (s : State)
    (h1 : s.options.minZoom ≤ 1) (h2 : 1 ≤ s.options.maxZoom)
    (hlo : s.options.minZoom ≤ s.currentZoom)
    (hhi : s.currentZoom ≤ s.options.maxZoom) :
    (ops.foldl applyOp s).options = s.options ∧
    s.options.minZoom ≤ (ops.foldl applyOp s).currentZoom ∧
    (ops.foldl applyOp s).currentZoom ≤ s.options.maxZoom := by
  induction ops generalizing s with
  | nil => exact ⟨rfl, hlo, hhi⟩
  | cons op ops ih =>
    obtain ⟨ho, hlo2, hhi2⟩ :=
      shape_preserves_inv s (applyOp s op) (applyOp_shape s op) h1 h2 hlo hhi
    obtain ⟨ho3, hlo3, hhi3⟩ := ih (applyOp s op)
      (ho ▸ h1) (ho ▸ h2) (ho ▸ hlo2) (ho ▸ hhi2)
    rw [List.foldl_cons]
    exact ⟨ho3.trans ho, ho ▸ hlo3, ho ▸ hhi3⟩

/-- C1: evaluation at the failing input.  After destroy() on a freshly
constructed controller, isInitialized is false, yet panBy(5,5) returns true
and mutates the translation, setZoom(2) returns true and mutates the scale,
zoomIn() returns true, reset() and resize() return true, and zoomBy(2,10,10)
with a center point dereferences the null element reference (none = thrown
TypeError); only fit() returns false.  This contradicts the claim that after
destroy every mutator is a false-returning no-op that cannot throw. -/
theorem destroy_unsafe_eval :
    isInit destroyedState = false ∧
    (panBy destroyedState 5 5).1 = true ∧
    (panBy destroyedState 5 5).2.currentPanX = 5 ∧
    (panBy destroyedState 5 5).2.currentPanY = 5 ∧
    (setZoom destroyedState 2).1 = true ∧
    (setZoom destroyedState 2).2.currentZoom = 2 ∧
    ((zoomIn destroyedState).map Prod.fst) = some true ∧
    zoomBy destroyedState 2 (some 10) (some 10) = none ∧
    (reset destroyedState).1 = true ∧
    (reset destroyedState).2.currentZoom = 1 ∧
    resize destroyedState = (true, destroyedState) ∧
    fit destroyedState = (false, destroyedState) := by
  have hs2 : ¬ clampZoom destroyedState.options (2 : ℚ)
      = destroyedState.currentZoom := by
    norm_num [clampZoom, destroyedState, destroy, initState, defaults, max_def, min_def]
  have h2 : ¬ clampZoom destroyedState.options (destroyedState.currentZoom * 2)
      = destroyedState.currentZoom := by
    norm_num [clampZoom, destroyedState, destroy, initState, defaults, max_def, min_def]
  have h12 : ¬ clampZoom destroyedState.options (destroyedState.currentZoom * (12/10))
      = destroyedState.currentZoom := by
    norm_num [clampZoom, destroyedState, destroy, initState, defaults, max_def, min_def]
  refine ⟨rfl, rfl, ?_, ?_, ?_, ?_, ?_, ?_, rfl, rfl, rfl, rfl⟩
  · norm_num [panBy, destroyedState, destroy, initState, defaults]
  · norm_num [panBy, destroyedState, destroy, initState, defaults]
  · rw [setZoom_neg destroyedState 2 rfl hs2]
  · rw [setZoom_neg destroyedState 2 rfl hs2]
    norm_num [clampZoom, destroyedState, destroy, initState, defaults, max_def, min_def]
  · unfold zoomIn
    rw [show destroyedState.options.zoomEnabled = true from rfl,
      if_neg (by decide : ¬ ((!true) = true)),
      zoomBy_neg_nn destroyedState (12/10) h12]
    rfl
  · rw [zoomBy_neg_center_null destroyedState 2 10 10 h2 rfl]

/-- C2 counterexample: with the default configuration (minZoom = 1/10 ≤ 1 ≤
maxZoom = 10) and a 1 by 1 container around a 100 by 100 element, the
single mutation fit() changes the scale to 1/100, which is below minZoom:
the clamp invariant does not survive sequences containing fit. -/
theorem fit_breaks_minZoom_cex :
    (fit (initState (some elemA) defaults)).2.currentZoom = 1/100 ∧
    ¬ defaults.minZoom ≤ (fit (initState (some elemA) defaults)).2.currentZoom := by
  norm_num [fit, initState, elemA, defaults, boundingRect]

/-- C2 (amended): for every configuration with minZoom ≤ 1 ≤ maxZoom and every
sequence of controller operations drawn from zoomBy, setZoom, zoomIn,
zoomOut, panBy, setPan, pinch handling and reset — fit excluded, since it
applies no minZoom clamp — the scale of the resulting Transform satisfies
minZoom ≤ scale ≤ maxZoom. -/
theorem clamp_invariant_amended (el : Option SvgElem) (o : Options)
    (ops : List PZOp) (h1 : o.minZoom ≤ 1) (h2 : 1 ≤ o.maxZoom) :
    o.minZoom ≤ (ops.foldl applyOp (initState el o)).currentZoom ∧
    (ops.foldl applyOp (initState el o)).currentZoom ≤ o.maxZoom := by
  have h := foldl_applyOp_inv ops (initState el o) h1 h2 h1 h2
  exact ⟨h.2.1, h.2.2⟩

/-- Witness for clamp_invariant_amended at a concrete input: default options,
a zoomBy(100) that clamps at maxZoom, then setZoom(1/2). -/
theorem clamp_invariant_amended_witness :
    defaults.minZoom ≤
      ([PZOp.opZoomBy 100 none none, PZOp.opSetZoom (1/2)].foldl applyOp
        (initState (some elemA) defaults)).currentZoom ∧
    ([PZOp.opZoomBy 100 none none, PZOp.opSetZoom (1/2)].foldl applyOp
        (initState (some elemA) defaults)).currentZoom ≤ defaults.maxZoom :=
  clamp_invariant_amended (some elemA) defaults
    [PZOp.opZoomBy 100 none none, PZOp.opSetZoom (1/2)]
    (by norm_num [defaults]) (by norm_num [defaults])

/-- C3: evaluation at the failing input.  With transform scale 1 and
translation (50, 0) on a 100-wide element whose layout box sits at the
client origin, the local point (50, 0) lies under cursor (100, 0); after
zoomBy(2, 100, 0) the code puts that point at screen (50, 0), not back
under the cursor: the pan recomputation measures the cursor offset from
the already-translated rectangle and discards the pre-existing
translation, contradicting the source comment that the zoom center keeps
the same screen position. -/
theorem zoom_center_not_fixed_eval :
    screenPos s3 elemA 50 0 = (100, 0) ∧
    ((zoomBy s3 2 (some 100) (some 0)).map (fun r => screenPos r.2 elemA 50 0))
      = some (50, 0) ∧
    ¬ ((zoomBy s3 2 (some 100) (some 0)).map (fun r => screenPos r.2 elemA 50 0))
      = some (100, 0) := by
  have h : ¬ clampZoom s3.options (s3.currentZoom * 2) = s3.currentZoom := by
    norm_num [clampZoom, s3, initState, defaults, max_def, min_def]
  rw [zoomBy_neg_center s3 2 100 0 elemA h rfl]
  refine ⟨?_, ?_, ?_⟩
  · norm_num [screenPos, s3, initState, elemA]
  · norm_num [screenPos, boundingRect, clampZoom, s3, initState, elemA, defaults,
      max_def, min_def]
  · norm_num [screenPos, boundingRect, clampZoom, s3, initState, elemA, defaults,
      max_def, min_def]

/-- C5 counterexample: zoomBy performs no zoomEnabled check.  On a fresh
controller with zoomEnabled false, a direct zoomBy(2) call returns true
and changes the scale from 1 to 2, where the claim requires false and no
state change. -/
theorem zoomBy_ignores_gate_cex :
    (zoomBy s5 2 none none).map Prod.fst = some true ∧
    (zoomBy s5 2 none none).map (fun r => r.2.currentZoom) = some 2 ∧
    ¬ s5.currentZoom = 2 := by
  have h : ¬ clampZoom s5.options (s5.currentZoom * 2) = s5.currentZoom := by
    norm_num [clampZoom, s5, initState, defaults, max_def, min_def]
  rw [zoomBy_neg_nn s5 2 h]
  refine ⟨rfl, ?_, ?_⟩
  · norm_num [clampZoom, s5, initState, defaults, max_def, min_def]
  · norm_num [s5, initState]

/-- C5 (amended): the zoomEnabled gate is enforced by zoomIn, zoomOut and
setZoom, each returning false with the Transform untouched when the flag
is off; zoomBy itself has no zoomEnabled check and is gated only through
its wrappers, so a direct zoomBy call mutates even with the flag off. -/
theorem zoom_gate_amended (s : State) (z : ℚ)
    (h : s.options.zoomEnabled = false) :
    zoomIn s = some (false, s) ∧ zoomOut s = some (false, s) ∧
    setZoom s z = (false, s) := by
  refine ⟨?_, ?_, setZoom_disabled s z h⟩
  · unfold zoomIn
    rw [h]
    exact if_pos rfl
  · unfold zoomOut
    rw [h]
    exact if_pos rfl

/-- Witness for zoom_gate_amended on a fresh controller with zoom disabled. -/
theorem zoom_gate_amended_witness :
    zoomIn s5 = some (false, s5) ∧ zoomOut s5 = some (false, s5) ∧
    setZoom s5 3 = (false, s5) :=
  zoom_gate_amended s5 3 rfl

/-- C6 counterexample: with panEnabled true and the translation already at
(5, 7), setPan(5, 7) returns true — the source has no unchanged-value
check on setPan — while the claim requires false. -/
theorem setPan_unchanged_returns_true_cex :
    (setPan s6 5 7).1 = true ∧ (setPan s6 5 7).2 = s6 :=
  ⟨rfl, rfl⟩

/-- C6 (amended): setZoom returns false without mutating when its gate is
closed or when the clamped target equals the current scale; setPan returns
false without mutating when its gate is closed, but performs no
unchanged-value check: with panEnabled true it writes the pan and returns
true even when the target equals the current translation. -/
theorem setters_gate_amended (s : State) (z x y : ℚ) :
    (s.options.zoomEnabled = false → setZoom s z = (false, s)) ∧
    (s.options.zoomEnabled = true → clampZoom s.options z = s.currentZoom →
      setZoom s z = (false, s)) ∧
    (s.options.panEnabled = false → setPan s x y = (false, s)) ∧
    (s.options.panEnabled = true →
      setPan s x y = (true, { s with currentPanX := x, currentPanY := y })) := by
  refine ⟨fun h => setZoom_disabled s z h, fun hz h => setZoom_pos s z hz h,
    fun h => ?_, fun h => ?_⟩
  · unfold setPan
    rw [h]
    exact if_pos rfl
  · unfold setPan
    rw [h]
    exact if_neg (by decide)

/-- Witness for setters_gate_amended: setPan at the unchanged target returns
true, setZoom at the unchanged clamped target returns false. -/
theorem setters_gate_amended_witness :
    setPan s6 5 7 = (true, { s6 with currentPanX := 5, currentPanY := 7 }) ∧
    setZoom s6 1 = (false, s6) :=
  ⟨(setters_gate_amended s6 1 5 7).2.2.2 rfl,
   (setters_gate_amended s6 1 5 7).2.1 rfl
     (by norm_num [clampZoom, s6, initState, defaults, max_def, min_def])⟩

lemma centerAt_some (s : State) (e : SvgElem) (cx cy : ℚ)
    (hse : s.svgElement = some e) :
    centerAt s cx cy = some (true, { s with
      currentPanX := cx - (boundingRect s e).left
        - ((boundingRect s e).width * s.currentZoom) / 2
      currentPanY := cy - (boundingRect s e).top
        - ((boundingRect s e).height * s.currentZoom) / 2 }) := by
  unfold centerAt
  rw [hse]

lemma hdc_fit (s : State) (e : SvgElem) (clientX clientY : ℚ)
    (hse : s.svgElement = some e) (h : |s.currentZoom - 1| < 1/10) :
    handleDoubleClick s clientX clientY = some (fit s).2 := by
  unfold handleDoubleClick
  rw [hse]
  exact if_pos h

lemma hdc_else (s : State) (e : SvgElem) (clientX clientY : ℚ)
    (hse : s.svgElement = some e) (h : ¬ |s.currentZoom - 1| < 1/10) :
    handleDoubleClick s clientX clientY
      = (centerAt (setZoom s 1).2
          ((boundingRect s e).left + (boundingRect s e).width / 2)
          ((boundingRect s e).top + (boundingRect s e).height / 2)).map Prod.snd := by
  unfold handleDoubleClick
  rw [hse]
  exact if_neg h

lemma fit_some (s : State) (e : SvgElem) (cw ch : ℚ)
    (hse : s.svgElement = some e) (hc : e.container = some (cw, ch)) :
    fit s = (true, { s with
      currentZoom := min (min (cw / (boundingRect s e).width)
        (ch / (boundingRect s e).height)) 1
      currentPanX := (cw - (boundingRect s e).width
        * min (min (cw / (boundingRect s e).width)
            (ch / (boundingRect s e).height)) 1) / 2
      currentPanY := (ch - (boundingRect s e).height
        * min (min (cw / (boundingRect s e).width)
            (ch / (boundingRect s e).height)) 1) / 2 }) := by
  unfold fit
  simp only [hse, hc]

lemma fit_none_container (s : State) (e : SvgElem)
    (hse : s.svgElement = some e) (hc : e.container = none) :
    fit s = (false, s) := by
  unfold fit
  simp only [hse, hc]

lemma fit_no_elem (s : State) (hse : s.svgElement = none) :
    fit s = (false, s) := by
  unfold fit
  rw [hse]

/-- C4 counterexample: at scale 5/2 on elemA, a double-click at pointer
position (1000, 1000) does not re-center on the click coordinates: the
result differs from centering at (1000, 1000) (which would give
translation x = 950) and instead has translation x = 75, the value
obtained from the element rect center. -/
theorem dblclick_click_coords_cex :
    handleDoubleClick s4 1000 1000 ≠
      (centerAt (setZoom s4 1).2 1000 1000).map Prod.snd ∧
    (handleDoubleClick s4 1000 1000).map State.currentPanX = some 75 := by
  have hne : ¬ |s4.currentZoom - 1| < 1/10 := by
    rw [show s4.currentZoom = 5/2 from rfl,
      show (5:ℚ)/2 - 1 = 3/2 by norm_num,
      abs_of_pos (by norm_num : (0:ℚ) < 3/2)]
    norm_num
  have hneq : ¬ clampZoom s4.options 1 = s4.currentZoom := by
    norm_num [clampZoom, s4, initState, defaults, max_def, min_def]
  have hsz : setZoom s4 1 = (true, { s4 with currentZoom := clampZoom s4.options 1 }) :=
    setZoom_neg s4 1 rfl hneq
  have hA : (handleDoubleClick s4 1000 1000).map State.currentPanX = some 75 := by
    rw [hdc_else s4 elemA 1000 1000 rfl hne, hsz,
      centerAt_some { s4 with currentZoom := clampZoom s4.options 1 } elemA _ _ rfl]
    simp only [Option.map_some', Option.some.injEq]
    norm_num [boundingRect, clampZoom, s4, initState, elemA, defaults, max_def, min_def]
  have hB : ((centerAt (setZoom s4 1).2 1000 1000).map Prod.snd).map State.currentPanX
      = some 950 := by
    rw [hsz,
      centerAt_some { s4 with currentZoom := clampZoom s4.options 1 } elemA 1000 1000 rfl]
    simp only [Option.map_some', Option.some.injEq]
    norm_num [boundingRect, clampZoom, s4, initState, elemA, defaults, max_def, min_def]
  refine ⟨fun hcontra => ?_, hA⟩
  rw [hcontra, hB] at hA
  exact absurd hA (by norm_num)

/-- C4 (amended): on a double-click with a live element, zoom enabled and 1
inside the clamp range, if the current scale is strictly within 0.1 of
1.0 then fit() is invoked; otherwise the scale is set to 1.0 and the view
is re-centered on the center of the element bounding rectangle (measured
before the zoom change), giving translation (naturalWidth*(scale-1)/2,
naturalHeight*(scale-1)/2); the pointer coordinates of the double-click
event are ignored, so the result does not depend on them. -/
theorem dblclick_toggle_amended (s : State) (e : SvgElem) (clientX clientY : ℚ)
    (he : s.svgElement = some e) (hz : s.options.zoomEnabled = true)
    (h1 : s.options.minZoom ≤ 1) (h2 : 1 ≤ s.options.maxZoom) :
    (|s.currentZoom - 1| < 1/10 →
      handleDoubleClick s clientX clientY = some (fit s).2) ∧
    (¬ |s.currentZoom - 1| < 1/10 →
      (handleDoubleClick s clientX clientY).map State.currentZoom = some 1 ∧
      (handleDoubleClick s clientX clientY).map State.currentPanX
        = some (e.naturalWidth * (s.currentZoom - 1) / 2) ∧
      (handleDoubleClick s clientX clientY).map State.currentPanY
        = some (e.naturalHeight * (s.currentZoom - 1) / 2)) ∧
    (∀ cx cy : ℚ,
      handleDoubleClick s clientX clientY = handleDoubleClick s cx cy) := by
  refine ⟨fun h => hdc_fit s e clientX clientY he h, fun h => ?_, fun cx cy => rfl⟩
  have hz1 : s.currentZoom ≠ 1 := fun hq => h (by rw [hq]; norm_num)
  have hclamp : clampZoom s.options 1 = 1 := clampZoom_eq_self s.options 1 h1 h2
  have hneq : ¬ clampZoom s.options 1 = s.currentZoom := by
    rw [hclamp]
    exact fun hq => hz1 hq.symm
  have hsz : setZoom s 1 = (true, { s with currentZoom := 1 }) := by
    rw [setZoom_neg s 1 hz hneq, hclamp]
  have hca := centerAt_some { s with currentZoom := 1 } e
      ((boundingRect s e).left + (boundingRect s e).width / 2)
      ((boundingRect s e).top + (boundingRect s e).height / 2) he
  rw [hdc_else s e clientX clientY he h, hsz]
  rw [hca]
  refine ⟨rfl, ?_, ?_⟩
  · simp only [Option.map_some', Option.some.injEq, boundingRect]
    ring
  · simp only [Option.map_some', Option.some.injEq, boundingRect]
    ring

/-- Witness for dblclick_toggle_amended on elemA at scale 5/2: the double
click sets the translation x to 75 = 100*(5/2 - 1)/2. -/
theorem dblclick_toggle_amended_witness :
    (handleDoubleClick s4 7 9).map State.currentPanX = some 75 := by
  have h := ((dblclick_toggle_amended s4 elemA 7 9 rfl rfl
      (by norm_num [s4, initState, defaults])
      (by norm_num [s4, initState, defaults])).2.1
      (by
        rw [show s4.currentZoom = 5/2 from rfl,
          show (5:ℚ)/2 - 1 = 3/2 by norm_num,
          abs_of_pos (by norm_num : (0:ℚ) < 3/2)]
        norm_num)).2.1
  rw [h]
  norm_num [elemA, s4, initState]

/-- C7: during a two-finger pinch with a recorded baseline (distance d0 ≠ 0
and scale z0 at pinch start), a touch-move at inter-finger distance d sets
the scale to z0 * (d / d0) clamped to the zoom range — relative to the
pinch-start baseline, not incremental per move — and concretely, starting
at scale 1 with baseline distance 100, moving to 200 gives scale 2 and
then moving to 50 gives scale 1/2. -/
theorem pinch_baseline_thm (s : State) (d0 z0 d : ℚ)
    (hz : s.options.zoomEnabled = true)
    (hd : s.initialPinchDistance = some d0) (hz0 : s.initialZoom = some z0)
    (hd0 : d0 ≠ 0) (hmm : s.options.minZoom ≤ s.options.maxZoom) :
    (handleTouchMovePinch s d).currentZoom = clampZoom s.options (z0 * (d / d0)) ∧
    ((handleTouchMovePinch
        (handleTouchStartPinch (initState (some elemA) defaults) 100) 200).currentZoom
      = 2 ∧
     (handleTouchMovePinch (handleTouchMovePinch
        (handleTouchStartPinch (initState (some elemA) defaults) 100) 200) 50).currentZoom
      = 1/2) := by
  constructor
  · unfold handleTouchMovePinch
    rw [hz, hd, hz0]
    simp only [Option.getD_some]
    rw [if_pos trivial, if_pos hd0]
    have hidem : clampZoom s.options (clampZoom s.options (z0 * (d / d0)))
        = clampZoom s.options (z0 * (d / d0)) :=
      clampZoom_idem s.options _ hmm
    by_cases hc : clampZoom s.options (clampZoom s.options (z0 * (d / d0)))
        = s.currentZoom
    · rw [setZoom_pos s _ hz hc, ← hc, hidem]
    · rw [setZoom_neg s _ hz hc, hidem]
  · constructor <;>
      norm_num [handleTouchStartPinch, handleTouchMovePinch, setZoom, clampZoom,
        initState, defaults, elemA, max_def, min_def]

/-- Witness for pinch_baseline_thm: from the recorded baseline (distance 100,
scale 1) a move to distance 200 yields the clamped ratio scale. -/
theorem pinch_baseline_thm_witness :
    (handleTouchMovePinch
        (handleTouchStartPinch (initState (some elemA) defaults) 100) 200).currentZoom
      = clampZoom (handleTouchStartPinch (initState (some elemA) defaults) 100).options
          (1 * (200 / 100)) :=
  (pinch_baseline_thm (handleTouchStartPinch (initState (some elemA) defaults) 100)
    100 1 200 rfl rfl rfl (by norm_num)
    (by norm_num [handleTouchStartPinch, initState, defaults])).1

/-- C8: when the element and a container are resolvable, fit() returns true,
sets the scale to min(containerW/measuredW, containerH/measuredH, 1) —
hence always ≤ 1 — and centers the measured rectangle, with translation
exactly ((containerW - measuredW*scale)/2, (containerH - measuredH*scale)/2),
where the measured rectangle is the element bounding rect under the
current transform; with no resolvable container (or no element) it
returns false and changes nothing. -/
theorem fit_spec_thm (s : State) :
    (∀ e cw ch, s.svgElement = some e → e.container = some (cw, ch) →
      (fit s).1 = true ∧
      (fit s).2.currentZoom
        = min (min (cw / (boundingRect s e).width)
            (ch / (boundingRect s e).height)) 1 ∧
      (fit s).2.currentZoom ≤ 1 ∧
      (fit s).2.currentPanX
        = (cw - (boundingRect s e).width * (fit s).2.currentZoom) / 2 ∧
      (fit s).2.currentPanY
        = (ch - (boundingRect s e).height * (fit s).2.currentZoom) / 2) ∧
    (∀ e, s.svgElement = some e → e.container = none → fit s = (false, s)) ∧
    (s.svgElement = none → fit s = (false, s)) := by
  refine ⟨fun e cw ch he hc => ?_, fun e he hc => fit_none_container s e he hc,
    fun he => fit_no_elem s he⟩
  rw [fit_some s e cw ch he hc]
  exact ⟨rfl, rfl, min_le_right _ _, rfl, rfl⟩

/-- Witness for fit_spec_thm on elemB inside its 300 by 200 container. -/
theorem fit_spec_thm_witness :
    (fit (initState (some elemB) defaults)).1 = true ∧
    (fit (initState (some elemB) defaults)).2.currentZoom ≤ 1 := by
  have h := (fit_spec_thm (initState (some elemB) defaults)).1 elemB 300 200 rfl rfl
  exact ⟨h.1, h.2.2.1⟩

/-- C10: zoomIn() followed by zoomOut() is not the identity on the scale:
from any state with zoom enabled, a positive scale s, minZoom ≤ 0.96*s
and 1.2*s ≤ maxZoom, the two calls land on scale 0.96*s, which differs
from s, because the steps multiply by 1.2 and 0.8. -/
theorem zoomIn_zoomOut_thm (s : State)
    (hz : s.options.zoomEnabled = true) (hs : 0 < s.currentZoom)
    (hmin : s.options.minZoom ≤ (96/100) * s.currentZoom)
    (hmax : (12/10) * s.currentZoom ≤ s.options.maxZoom) :
    ((zoomIn s).bind fun r => (zoomOut r.2).map fun r2 => r2.2.currentZoom)
      = some ((96/100) * s.currentZoom) ∧
    (96/100) * s.currentZoom ≠ s.currentZoom := by
  have hz' : s.currentZoom ≠ 0 := ne_of_gt hs
  have h1 : clampZoom s.options (s.currentZoom * (12/10))
      = s.currentZoom * (12/10) := by
    apply clampZoom_eq_self
    · nlinarith
    · nlinarith
  have hne1 : ¬ clampZoom s.options (s.currentZoom * (12/10)) = s.currentZoom := by
    rw [h1]
    intro hq
    nth_rewrite 2 [show s.currentZoom = s.currentZoom * 1 from (mul_one _).symm] at hq
    have := mul_left_cancel₀ hz' hq
    norm_num at this
  have hIn : zoomIn s
      = some (true, { s with currentZoom := s.currentZoom * (12/10) }) := by
    unfold zoomIn
    rw [hz, if_neg (by decide : ¬ ((!true) = true)), zoomBy_neg_nn s (12/10) hne1, h1]
  have h2 : clampZoom s.options (s.currentZoom * (12/10) * (8/10))
      = (96/100) * s.currentZoom := by
    rw [show s.currentZoom * (12/10) * (8/10) = (96/100) * s.currentZoom by ring]
    apply clampZoom_eq_self
    · exact hmin
    · nlinarith
  have hne2 : ¬ clampZoom s.options (s.currentZoom * (12/10) * (8/10))
      = s.currentZoom * (12/10) := by
    rw [h2]
    intro hq
    have hq2 : (96/100) * s.currentZoom = (12/10) * s.currentZoom := by
      rw [hq]; ring
    have := mul_right_cancel₀ hz' hq2
    norm_num at this
  have hOut : zoomOut { s with currentZoom := s.currentZoom * (12/10) }
      = some (true, { s with currentZoom := (96/100) * s.currentZoom }) := by
    unfold zoomOut
    rw [show ({ s with currentZoom := s.currentZoom * (12/10) } : State).options.zoomEnabled
        = true from hz, if_neg (by decide : ¬ ((!true) = true))]
    rw [zoomBy_neg_nn { s with currentZoom := s.currentZoom * (12/10) } (8/10) hne2, h2]
  rw [hIn]
  refine ⟨?_, ?_⟩
  · simp only [Option.some_bind]
    rw [hOut]
    rfl
  · intro hq
    nth_rewrite 2 [show s.currentZoom = 1 * s.currentZoom from (one_mul _).symm] at hq
    have := mul_right_cancel₀ hz' hq
    norm_num at this

/-- Witness for zoomIn_zoomOut_thm on a fresh default controller at scale 1:
zoomIn then zoomOut lands on 96/100. -/
theorem zoomIn_zoomOut_thm_witness :
    ((zoomIn (initState (some elemA) defaults)).bind fun r =>
        (zoomOut r.2).map fun r2 => r2.2.currentZoom)
      = some ((96/100) * (initState (some elemA) defaults).currentZoom) ∧
    (96/100) * (initState (some elemA) defaults).currentZoom
      ≠ (initState (some elemA) defaults).currentZoom :=
  zoomIn_zoomOut_thm (initState (some elemA) defaults) rfl
    (by norm_num [initState])
    (by norm_num [initState, defaults])
    (by norm_num [initState, defaults])

/-- C9: reset() returns true and sets the Transform to exactly scale 1,
translation (0, 0), for every prior state and independently of the
enablement flags, and it is idempotent: resetting twice yields the same
state as resetting once. -/
theorem reset_idempotent_thm (s : State) :
    (reset s).1 = true ∧
    (reset s).2.currentZoom = 1 ∧
    (reset s).2.currentPanX = 0 ∧
    (reset s).2.currentPanY = 0 ∧
    reset (reset s).2 = reset s :=
  ⟨rfl, rfl, rfl, rfl, rfl⟩

end PanZoom
